import Mathlib

/-!
Verification of the gbe Game Boy emulator core (src/src/display.cpp,
src/src/cartridge.cpp) against its natural-language specification.

Shallow embedding conventions:
* C++ unsigned integers are modelled as `Nat`; where an operation can
  overflow or truncate in the source (assignment to a narrower field,
  unsigned subtraction), the reduction `% 2^w` is applied explicitly at
  that point.
* `x & 0xFF` on a byte-register store is modelled as `x % 256`
  (identical on `Nat`), and the `switch (address & 0xF000)` dispatch of
  the MBC handlers is modelled as a match on `address / 0x1000`
  (identical for the 16-bit addresses the bus delivers).
* Side effects observable outside the state (interrupt requests raised
  through `System::CPUInterruptRequest`, the `pushFrameBuffer` return
  value of `Display::Step`, the host persistence callbacks) are modelled
  as event counters carried in the state, so that "the interrupt is
  raised exactly once" becomes a statement about a counter.
* `Timestamp::Now()` is modelled as an explicit `now` parameter.
-/

namespace Gbe

/-! ## PPU state machine (src/src/display.cpp) -/

namespace Display

/-- PPU state: `m_mode`, `m_modeClocksRemaining`, `m_currentScanLine`,
and the registers `Display::Step` touches (`LY`, `LYC`, `STAT`), plus
observation counters: `frames` counts the steps whose `pushFrameBuffer`
return value is true, `vblanks` counts `CPUInterruptRequest(CPU_INT_VBLANK)`
calls and `lcdstats` counts `CPUInterruptRequest(CPU_INT_LCDSTAT)` calls. -/
structure DState where
  mode : Nat
  clocks : Nat
  line : Nat
  ly : Nat
  lyc : Nat
  stat : Nat
  frames : Nat
  vblanks : Nat
  lcdstats : Nat
  deriving DecidableEq

/-- Embedding of `Display::SetMode` (display.cpp:35-73): store the mode,
mirror it into the low two STAT bits, and raise the mode-entry
interrupts (LCDSTAT gated on STAT bits 3/4/5, VBLANK unconditionally on
entry to mode 1). -/
def SetMode (m : Nat) (s : DState) : DState :=
  let stat := (s.stat &&& 0xFC) ||| (m &&& 0x3)
  let s1 := { s with mode := m, stat := stat }
  if m = 0 then
    if stat &&& 0x8 ≠ 0 then { s1 with lcdstats := s1.lcdstats + 1 } else s1
  else if m = 1 then
    let s2 := if stat &&& 0x10 ≠ 0 then { s1 with lcdstats := s1.lcdstats + 1 } else s1
    { s2 with vblanks := s2.vblanks + 1 }
  else if m = 2 then
    if stat &&& 0x20 ≠ 0 then { s1 with lcdstats := s1.lcdstats + 1 } else s1
  else s1

/-- Embedding of `Display::SetScanline` (display.cpp:76-92).  Note the
source computes the new STAT bit 2 from the *previous* value of STAT
bit 2: when it was set the new flag is `(LYC == LY)`, otherwise the new
flag is `(LYC != LY)`.  The LCDSTAT interrupt is raised when the
computed flag is set and STAT bit 6 is set. -/
def SetScanline (v : Nat) (s : DState) : DState :=
  let ly := v % 256
  let flag : Nat :=
    if s.stat &&& 0x4 ≠ 0 then (if s.lyc = ly then 1 else 0)
    else (if s.lyc ≠ ly then 1 else 0)
  let stat := (s.stat &&& 0xFB) ||| (flag <<< 2)
  let s1 := { s with line := v, ly := ly, stat := stat }
  if flag ≠ 0 ∧ stat &&& 0x40 ≠ 0 then { s1 with lcdstats := s1.lcdstats + 1 } else s1

/-- Embedding of `Display::Step` (display.cpp:94-200), one T-cycle.
The OAM/VRAM snapshot copies and `RenderScanline` do not affect this
state and are modelled separately. -/
def Step (s : DState) : DState :=
  if s.mode = 2 then
    let c := s.clocks - 1
    if c = 0 then SetMode 3 { s with clocks := 172 } else { s with clocks := c }
  else if s.mode = 3 then
    let c := s.clocks - 1
    if c = 0 then SetMode 0 { s with clocks := 204 } else { s with clocks := c }
  else if s.mode = 0 then
    let c := s.clocks - 1
    if c = 0 then
      let s1 := SetScanline (s.line + 1) s
      if s1.line = 144 then
        let s2 := SetMode 1 { s1 with clocks := 456 }
        { s2 with frames := s2.frames + 1 }
      else SetMode 2 { s1 with clocks := 80 }
    else { s with clocks := c }
  else if s.mode = 1 then
    let c := s.clocks - 1
    if c = 0 then
      let s1 := SetScanline (s.line + 1) s
      if s1.line = 154 then SetScanline 0 (SetMode 2 { s1 with clocks := 80 })
      else { s1 with clocks := 456 }
    else { s with clocks := c }
  else s

/-- Embedding of `Display::Reset` (display.cpp:19-33): registers zeroed,
then `SetMode(2)`, 80 clocks remaining, scanline 0. -/
def Reset : DState :=
  SetMode 2 { mode := 0, clocks := 80, line := 0, ly := 0, lyc := 0, stat := 0,
              frames := 0, vblanks := 0, lcdstats := 0 }

/-- Iterate `Step` a given number of T-cycles. -/
def runN : Nat → DState → DState
  | 0, s => s
  | n + 1, s => runN n (Step s)

end Display

/-! ## Cartridge / MBC model (src/src/cartridge.cpp) -/

/-- RTC persistent state `Cartridge::m_rtc_data` (u64 base time, u8
second/minute/hour offsets, u16 day offset, active flag). -/
structure RTC_DATA where
  base_time : Nat
  offset_seconds : Nat
  offset_minutes : Nat
  offset_hours : Nat
  offset_days : Nat
  active : Bool
  deriving DecidableEq

/-- Result of `Cartridge::GetCurrentRTCTime` (four uint32 fields). -/
structure RTCValue where
  seconds : Nat
  minutes : Nat
  hours : Nat
  days : Nat
  deriving DecidableEq

/-- Embedding of `Cartridge::GetCurrentRTCTime` (cartridge.cpp:336-392).
`Timestamp::Now().AsUnixTimestamp()` is the explicit `now` argument.
All intermediate arithmetic is uint64 (reductions `% 2^64`; the initial
subtraction is unsigned wrap-around subtraction), and the four output
fields are uint32 casts of the indicated quotients/remainders. -/
def GetCurrentRTCTime (now : Nat) (rtc : RTC_DATA) : RTCValue :=
  let diff0 := (now % 2 ^ 64 + (2 ^ 64 - rtc.base_time % 2 ^ 64)) % 2 ^ 64
  let diff1 := (diff0 + rtc.offset_seconds) % 2 ^ 64
  let diff2 := (diff1 + rtc.offset_minutes * 60) % 2 ^ 64
  let diff3 := (diff2 + rtc.offset_hours * 3600) % 2 ^ 64
  let diff := (diff3 + rtc.offset_days * 86400) % 2 ^ 64
  { seconds := diff % 60 % 2 ^ 32
    minutes := diff / 60 % 60 % 2 ^ 32
    hours := diff / 3600 % 24 % 2 ^ 32
    days := diff / 86400 % 2 ^ 32 }

/-- The five latched RTC registers `mbc3.rtc_latch_data[0..4]`
(seconds, minutes, hours, day-low, day-high). -/
structure LatchData where
  d0 : Nat
  d1 : Nat
  d2 : Nat
  d3 : Nat
  d4 : Nat
  deriving DecidableEq

/-- MBC1 register file `m_mbc_data.mbc1`. -/
structure MBC1Data where
  ram_enable : Bool
  bank_mode : Nat
  rom_bank_number : Nat
  ram_bank_number : Nat
  active_rom_bank : Nat
  active_ram_bank : Nat
  deriving DecidableEq

/-- MBC3 register file `m_mbc_data.mbc3`. -/
structure MBC3Data where
  ram_rtc_enable : Bool
  rom_bank_number : Nat
  ram_bank_number : Nat
  rtc_latch : Nat
  rtc_latch_data : LatchData
  deriving DecidableEq

/-- MBC5 register file `m_mbc_data.mbc5` (`rom_bank_number` and
`active_rom_bank` are uint16 in the source). -/
structure MBC5Data where
  ram_enable : Bool
  rom_bank_number : Nat
  ram_bank_number : Nat
  active_rom_bank : Nat
  deriving DecidableEq

/-- The MBC-specific part of the cartridge state (the active arm of the
`m_mbc_data` union, tagged by `m_mbc`).  Only the four MBC kinds the
source implements at runtime appear. -/
inductive MBCData where
  | none : MBCData
  | mbc1 : MBC1Data → MBCData
  | mbc3 : MBC3Data → MBCData
  | mbc5 : MBC5Data → MBCData
  deriving DecidableEq

/-- Numeric value of the `MBC_TYPE` enum for the modelled arms
(`MBC_NONE`=0, `MBC_MBC1`=1, `MBC_MBC3`=3, `MBC_MBC5`=5). -/
def mbcTypeCode : MBCData → Nat
  | .none => 0
  | .mbc1 _ => 1
  | .mbc3 _ => 3
  | .mbc5 _ => 5

/-- Mutable cartridge state: CRC tag, bank/RAM geometry (immutable
after load), external RAM contents, RTC state, the dirty flag
`m_external_ram_modified`, and the MBC register file. -/
structure Cartridge where
  crc : Nat
  num_rom_banks : Nat
  external_ram_size : Nat
  external_ram : List Nat
  has_timer : Bool
  rtc : RTC_DATA
  external_ram_modified : Bool
  mbc : MBCData
  deriving DecidableEq

/-- Embedding of `Cartridge::SaveRAM` (cartridge.cpp:281-287): the host
callback itself is outside the state; the observable state change is
clearing the dirty flag. -/
def SaveRAM (s : Cartridge) : Cartridge :=
  { s with external_ram_modified := false }

/-- Embedding of `Cartridge::MBC_MBC1_UpdateActiveBanks`
(cartridge.cpp:783-811).  `active_rom_bank` is a uint8 field, so the
mode-0 combination is truncated `% 256`, and the clamp stores
`(uint8)m_num_rom_banks - 1` converted back to uint8, i.e.
`(num % 256 + 255) % 256`. -/
def MBC_MBC1_UpdateActiveBanks (num_rom_banks : Nat) (d : MBC1Data) : MBC1Data :=
  let d1 :=
    if d.bank_mode = 0 then
      { d with active_ram_bank := 0
               active_rom_bank :=
                 ((d.ram_bank_number <<< 5) ||| (d.rom_bank_number &&& 0x1F)) % 256 }
    else
      { d with active_ram_bank := d.ram_bank_number &&& 0x03
               active_rom_bank := d.rom_bank_number }
  let d2 :=
    if d1.active_rom_bank = 0x00 ∨ d1.active_rom_bank = 0x20 ∨
        d1.active_rom_bank = 0x40 ∨ d1.active_rom_bank = 0x60 then
      { d1 with active_rom_bank := d1.active_rom_bank + 1 }
    else d1
  if d2.active_rom_bank ≥ num_rom_banks then
    { d2 with active_rom_bank := (num_rom_banks % 256 + 255) % 256 }
  else d2

/-- Embedding of `Cartridge::MBC_MBC1_Write` (cartridge.cpp:705-757).
The uint8 `value` parameter is modelled by the entry reduction
`% 256`; the `switch (address & 0xF000)` is the match on
`address / 0x1000`; the external-RAM offset is uint16 arithmetic. -/
def MBC_MBC1_Write (s : Cartridge) (d : MBC1Data) (address value : Nat) : Cartridge :=
  let value := value % 256
  match address / 0x1000 with
  | 0 | 1 =>
    let enable := value = 0x0A
    let s1 := { s with mbc := .mbc1 { d with ram_enable := enable } }
    if ¬enable ∧ s1.external_ram_modified then SaveRAM s1 else s1
  | 2 | 3 =>
    { s with mbc := .mbc1 (MBC_MBC1_UpdateActiveBanks s.num_rom_banks
        { d with rom_bank_number := value }) }
  | 4 | 5 =>
    { s with mbc := .mbc1 (MBC_MBC1_UpdateActiveBanks s.num_rom_banks
        { d with ram_bank_number := value }) }
  | 6 | 7 =>
    { s with mbc := .mbc1 (MBC_MBC1_UpdateActiveBanks s.num_rom_banks
        { d with bank_mode := value }) }
  | _ =>
    if 0xA000 ≤ address ∧ address < 0xC000 then
      if d.ram_enable then
        let eram_offset := (d.active_ram_bank * 8192 + (address - 0xA000)) % 65536
        if eram_offset < s.external_ram_size then
          let s1 := if s.external_ram.getD eram_offset 0 ≠ value then
              { s with external_ram_modified := true }
            else s
          { s1 with external_ram := s1.external_ram.set eram_offset value }
        else s
      else s
    else s

/-- Embedding of `Cartridge::MBC_MBC1_Reset` (cartridge.cpp:658-665). -/
def MBC_MBC1_Reset (num_rom_banks : Nat) : MBC1Data :=
  MBC_MBC1_UpdateActiveBanks num_rom_banks
    { ram_enable := false, bank_mode := 0, rom_bank_number := 1, ram_bank_number := 0,
      active_rom_bank := 0, active_ram_bank := 0 }

/-- Embedding of `Cartridge::MBC_MBC3_UpdateActiveBanks`
(cartridge.cpp:1040-1057): bank 0 is bumped to 1, then the uint8
`rom_bank_number` is clamped as in MBC1. -/
def MBC_MBC3_UpdateActiveBanks (num_rom_banks : Nat) (d : MBC3Data) : MBC3Data :=
  let d1 := if d.rom_bank_number = 0 then
      { d with rom_bank_number := d.rom_bank_number + 1 }
    else d
  if d1.rom_bank_number ≥ num_rom_banks then
    { d1 with rom_bank_number := (num_rom_banks % 256 + 255) % 256 }
  else d1

/-- The latch snapshot written by the 0x6000-window handler of
`MBC_MBC3_Write` (cartridge.cpp:913-919): seconds, minutes, hours and
day-low as uint8 casts, and the day-high byte packing day bit 8 in
bit 0 and the day-carry (`days >= 512`) in bit 7. -/
def latchFromRTC (t : RTCValue) : LatchData :=
  { d0 := t.seconds % 256
    d1 := t.minutes % 256
    d2 := t.hours % 256
    d3 := t.days % 256
    d4 := ((t.days >>> 8) &&& 0x01) ||| ((if 512 ≤ t.days then 1 else 0) <<< 7) }

/-- Embedding of `Cartridge::MBC_MBC3_Write` (cartridge.cpp:881-1020).
The latch snapshot at the 0x6000 window fires when the stored latch
register is not 0x01 and the written value is 0x01; the day-high byte
packs day bit 8 in bit 0 and the day-carry (days >= 512) in bit 7.
The 0xA000-window RTC offset writes are modelled unconditionally: the
source skips the store (and the persistence callback) when the value is
unchanged, which yields the same state. -/
def MBC_MBC3_Write (now : Nat) (s : Cartridge) (d : MBC3Data) (address value : Nat) :
    Cartridge :=
  let value := value % 256
  match address / 0x1000 with
  | 0 | 1 =>
    let enable := value = 0x0A
    let s1 := { s with mbc := .mbc3 { d with ram_rtc_enable := enable } }
    if ¬enable ∧ s1.external_ram_modified then SaveRAM s1 else s1
  | 2 | 3 =>
    { s with mbc := .mbc3 (MBC_MBC3_UpdateActiveBanks s.num_rom_banks
        { d with rom_bank_number := value &&& 0x7F }) }
  | 4 | 5 =>
    { s with mbc := .mbc3 (MBC_MBC3_UpdateActiveBanks s.num_rom_banks
        { d with ram_bank_number := value }) }
  | 6 | 7 =>
    let d1 :=
      if d.rtc_latch ≠ 0x01 ∧ value = 0x01 then
        { d with rtc_latch_data := latchFromRTC (GetCurrentRTCTime now s.rtc) }
      else d
    { s with mbc := .mbc3 { d1 with rtc_latch := value } }
  | _ =>
    if 0xA000 ≤ address ∧ address < 0xC000 then
      if d.ram_rtc_enable then
        if d.ram_bank_number ≤ 0x07 then
          let eram_offset := (d.ram_bank_number * 8192 + (address - 0xA000)) % 65536
          if eram_offset < s.external_ram_size then
            let s1 := if s.external_ram.getD eram_offset 0 ≠ value then
                { s with external_ram_modified := true }
              else s
            { s1 with external_ram := s1.external_ram.set eram_offset value }
          else s
        else if 0x08 ≤ d.ram_bank_number ∧ d.ram_bank_number ≤ 0x0C then
          if d.ram_bank_number = 0x08 then
            { s with rtc := { s.rtc with offset_seconds := value } }
          else if d.ram_bank_number = 0x09 then
            { s with rtc := { s.rtc with offset_minutes := value } }
          else if d.ram_bank_number = 0x0A then
            { s with rtc := { s.rtc with offset_hours := value } }
          else if d.ram_bank_number = 0x0B then
            { s with rtc := { s.rtc with
                offset_days := (s.rtc.offset_days &&& 0x300) ||| value } }
          else
            { s with rtc := { s.rtc with
                offset_days := (s.rtc.offset_days &&& 0xFF) |||
                  ((value &&& 0x01) <<< 8) ||| ((value &&& 0x80) <<< 2)
                active := value &&& 0x40 == 0 } }
        else s
      else s
    else s

/-- Embedding of `Cartridge::MBC_MBC3_Reset` (cartridge.cpp:826-832);
the latch register and latched data start zeroed (the `m_mbc_data`
union is zero-initialised in the constructor and not touched by the
reset). -/
def MBC_MBC3_Reset (num_rom_banks : Nat) : MBC3Data :=
  MBC_MBC3_UpdateActiveBanks num_rom_banks
    { ram_rtc_enable := false, rom_bank_number := 1, ram_bank_number := 0,
      rtc_latch := 0, rtc_latch_data := ⟨0, 0, 0, 0, 0⟩ }

/-- Embedding of `Cartridge::MBC_MBC5_UpdateActiveBanks`
(cartridge.cpp:1192-1205).  `active_rom_bank` is a uint16 field; the
clamp stores the int expression `(uint8)m_num_rom_banks - 1` converted
to uint16, i.e. `(num % 256 + 65535) % 65536`. -/
def MBC_MBC5_UpdateActiveBanks (num_rom_banks : Nat) (d : MBC5Data) : MBC5Data :=
  let d1 := { d with active_rom_bank := d.rom_bank_number }
  if d1.active_rom_bank ≥ num_rom_banks then
    { d1 with active_rom_bank := (num_rom_banks % 256 + 65535) % 65536 }
  else d1

/-- Embedding of `Cartridge::MBC_MBC5_Write` (cartridge.cpp:1119-1170). -/
def MBC_MBC5_Write (s : Cartridge) (d : MBC5Data) (address value : Nat) : Cartridge :=
  let value := value % 256
  match address / 0x1000 with
  | 0 | 1 =>
    let enable := value = 0x0A
    let s1 := { s with mbc := .mbc5 { d with ram_enable := enable } }
    if ¬enable ∧ s1.external_ram_modified then SaveRAM s1 else s1
  | 2 =>
    { s with mbc := .mbc5 (MBC_MBC5_UpdateActiveBanks s.num_rom_banks
        { d with rom_bank_number := (d.rom_bank_number &&& 0x100) ||| value }) }
  | 3 =>
    { s with mbc := .mbc5 (MBC_MBC5_UpdateActiveBanks s.num_rom_banks
        { d with rom_bank_number := (d.rom_bank_number &&& 0xFF) |||
            ((value &&& 0x01) <<< 8) }) }
  | 4 | 5 =>
    { s with mbc := .mbc5 (MBC_MBC5_UpdateActiveBanks s.num_rom_banks
        { d with ram_bank_number := value }) }
  | _ =>
    if 0xA000 ≤ address ∧ address < 0xC000 then
      if d.ram_enable then
        let eram_offset := (d.ram_bank_number * 8192 + (address - 0xA000)) % 65536
        if eram_offset < s.external_ram_size then
          let s1 := if s.external_ram.getD eram_offset 0 ≠ value then
              { s with external_ram_modified := true }
            else s
          { s1 with external_ram := s1.external_ram.set eram_offset value }
        else s
      else s
    else s

/-- Embedding of `Cartridge::MBC_MBC5_Reset` (cartridge.cpp:1072-1078). -/
def MBC_MBC5_Reset (num_rom_banks : Nat) : MBC5Data :=
  MBC_MBC5_UpdateActiveBanks num_rom_banks
    { ram_enable := false, rom_bank_number := 1, ram_bank_number := 0,
      active_rom_bank := 0 }

/-- Embedding of `Cartridge::MBC_NONE_Write` (cartridge.cpp:615-633):
only plain external-RAM stores (no dirty-flag update in the source). -/
def MBC_NONE_Write (s : Cartridge) (address value : Nat) : Cartridge :=
  let value := value % 256
  if 0xA000 ≤ address ∧ address < 0xC000 then
    let eram_offset := address - 0xA000
    if eram_offset < s.external_ram_size then
      { s with external_ram := s.external_ram.set eram_offset value }
    else s
  else s

/-- Embedding of `Cartridge::CPUWrite` (cartridge.cpp:430-443): dispatch
on the MBC kind. -/
def CPUWrite (now : Nat) (s : Cartridge) (address value : Nat) : Cartridge :=
  match s.mbc with
  | .none => MBC_NONE_Write s address value
  | .mbc1 d => MBC_MBC1_Write s d address value
  | .mbc3 d => MBC_MBC3_Write now s d address value
  | .mbc5 d => MBC_MBC5_Write s d address value

/-! ## Save states (Cartridge::SaveState / Cartridge::LoadState)

The `BinaryWriter`/`BinaryReader` stream is modelled as a list of typed
tokens, one per `WriteUInt8`/`WriteUInt16`/`WriteUInt32`/`WriteUInt64`/
`WriteBool`/`WriteBytes` call, in emission order; the writer reduces
each value to the width of the written type.  A read whose token shape
does not match is modelled as a failed load (such streams never arise
from `SaveState` and the source would read garbage there).  `LoadState`
mirrors the source's in-place mutation: on every early `return false`
the returned state is exactly what the object held at that point. -/

/-- One typed `BinaryWriter` emission. -/
inductive Tok where
  | u8 : Nat → Tok
  | u16 : Nat → Tok
  | u32 : Nat → Tok
  | u64 : Nat → Tok
  | b : Bool → Tok
  | bytes : List Nat → Tok
  deriving DecidableEq

/-- Embedding of `Cartridge::MBC_MBC1_SaveState` (cartridge.cpp:773-781). -/
def MBC_MBC1_SaveState (d : MBC1Data) : List Tok :=
  [.u8 (d.active_rom_bank % 256), .u8 (d.active_ram_bank % 256), .b d.ram_enable,
   .u8 (d.bank_mode % 256), .u8 (d.rom_bank_number % 256), .u8 (d.ram_bank_number % 256)]

/-- Embedding of `Cartridge::MBC_MBC3_SaveState` (cartridge.cpp:1033-1038):
only the three bank registers are serialized; `rtc_latch` and
`rtc_latch_data` are not. -/
def MBC_MBC3_SaveState (d : MBC3Data) : List Tok :=
  [.u8 (d.rom_bank_number % 256), .u8 (d.ram_bank_number % 256), .b d.ram_rtc_enable]

/-- Embedding of `Cartridge::MBC_MBC5_SaveState` (cartridge.cpp:1184-1190). -/
def MBC_MBC5_SaveState (d : MBC5Data) : List Tok :=
  [.u16 (d.active_rom_bank % 65536), .u16 (d.rom_bank_number % 65536),
   .u8 (d.ram_bank_number % 256), .b d.ram_enable]

/-- MBC-specific save payload, by kind (the `switch` in
`Cartridge::SaveState`). -/
def mbcSaveToks : MBCData → List Tok
  | .none => []
  | .mbc1 d => MBC_MBC1_SaveState d
  | .mbc3 d => MBC_MBC3_SaveState d
  | .mbc5 d => MBC_MBC5_SaveState d

/-- Embedding of the cartridge section written by `Cartridge::SaveState`
(cartridge.cpp:515-554): CRC, RAM size, RAM bytes when present, timer
flag and RTC fields when the cartridge has a timer, the MBC kind, the
MBC payload, and the bitwise complement of the kind as trailing
sentinel. -/
def SaveState (s : Cartridge) : List Tok :=
  [.u32 (s.crc % 2 ^ 32), .u32 (s.external_ram_size % 2 ^ 32)] ++
  (if 0 < s.external_ram_size then [.bytes s.external_ram] else []) ++
  [.b s.has_timer] ++
  (if s.has_timer then
    [.u64 (s.rtc.base_time % 2 ^ 64), .u16 (s.rtc.offset_days % 2 ^ 16),
     .u8 (s.rtc.offset_hours % 256), .u8 (s.rtc.offset_minutes % 256),
     .u8 (s.rtc.offset_seconds % 256), .b s.rtc.active]
   else []) ++
  [.u32 (mbcTypeCode s.mbc)] ++
  mbcSaveToks s.mbc ++
  [.u32 (2 ^ 32 - 1 - mbcTypeCode s.mbc)]

/-- Trailing-sentinel check of `Cartridge::LoadState`: the read u32 must
equal `~(uint32)m_mbc`. -/
def loadTrail (s : Cartridge) (ts : List Tok) : Bool × Cartridge :=
  match ts with
  | .u32 k :: _ => if k ≠ 2 ^ 32 - 1 - mbcTypeCode s.mbc then (false, s) else (true, s)
  | _ => (false, s)

/-- MBC-specific load payload (`MBC_*_LoadState`, cartridge.cpp:759-771,
1022-1031, 1172-1182), dispatched on the loading cartridge's own MBC
kind.  For MBC1/MBC5 every register is read back; for MBC3 only the
three bank registers are read and the latch state already in the union
is kept.  The bank-range check runs after the fields were stored, so a
failing load still returns the partially overwritten state, as in the
source. -/
def loadMbc (s : Cartridge) (ts : List Tok) : Bool × Cartridge :=
  match s.mbc, ts with
  | .none, ts2 => loadTrail s ts2
  | .mbc1 _, .u8 arb :: .u8 aab :: .b re :: .u8 bm :: .u8 rbn :: .u8 ramn :: ts3 =>
    let d2 : MBC1Data :=
      { ram_enable := re, bank_mode := bm, rom_bank_number := rbn,
        ram_bank_number := ramn, active_rom_bank := arb, active_ram_bank := aab }
    let s2 := { s with mbc := .mbc1 d2 }
    if arb ≥ s.num_rom_banks then (false, s2) else loadTrail s2 ts3
  | .mbc3 d, .u8 rbn :: .u8 ramn :: .b re :: ts3 =>
    let d2 : MBC3Data :=
      { d with rom_bank_number := rbn, ram_bank_number := ramn, ram_rtc_enable := re }
    let s2 := { s with mbc := .mbc3 d2 }
    if rbn ≥ s.num_rom_banks then (false, s2) else loadTrail s2 ts3
  | .mbc5 _, .u16 arb :: .u16 rbn :: .u8 ramn :: .b re :: ts3 =>
    let d2 : MBC5Data :=
      { ram_enable := re, rom_bank_number := rbn, ram_bank_number := ramn,
        active_rom_bank := arb }
    let s2 := { s with mbc := .mbc5 d2 }
    if arb ≥ s.num_rom_banks then (false, s2) else loadTrail s2 ts3
  | _, _ => (false, s)

/-- MBC-kind tag check of `Cartridge::LoadState`: the read u32 must
equal the loading cartridge's `m_mbc`. -/
def loadMbcKind (s : Cartridge) (ts : List Tok) : Bool × Cartridge :=
  match ts with
  | .u32 kind :: ts2 =>
    if kind ≠ mbcTypeCode s.mbc then (false, s) else loadMbc s ts2
  | _ => (false, s)

/-- Timer section of `Cartridge::LoadState`: a stored true flag makes
the loader overwrite the RTC fields (in the save order: base time,
days, hours, minutes, seconds, active). -/
def loadTimer (s : Cartridge) (ts : List Tok) : Bool × Cartridge :=
  match ts with
  | .b ht :: ts2 =>
    if ht then
      match ts2 with
      | .u64 bt :: .u16 od :: .u8 oh :: .u8 om :: .u8 osec :: .b act :: ts3 =>
        loadMbcKind { s with rtc :=
          { base_time := bt, offset_seconds := osec, offset_minutes := om,
            offset_hours := oh, offset_days := od, active := act } } ts3
      | _ => (false, s)
    else loadMbcKind s ts2
  | _ => (false, s)

/-- RAM section of `Cartridge::LoadState`: the RAM bytes are present
exactly when the (already validated) RAM size is nonzero. -/
def loadRam (s : Cartridge) (ram_size : Nat) (ts : List Tok) : Bool × Cartridge :=
  if 0 < ram_size then
    match ts with
    | .bytes l :: ts2 => loadTimer { s with external_ram := l } ts2
    | _ => (false, s)
  else loadTimer s ts

/-- Embedding of `Cartridge::LoadState` (cartridge.cpp:445-513): CRC
gate first, then RAM-size gate, then the RAM/RTC/MBC sections.  The
returned flag is the source's return value; the returned state is the
cartridge state after whatever mutations happened before the return. -/
def LoadState (s : Cartridge) (ts : List Tok) : Bool × Cartridge :=
  match ts with
  | .u32 crc :: ts1 =>
    if crc ≠ s.crc then (false, s)
    else
      match ts1 with
      | .u32 ram_size :: ts2 =>
        if s.external_ram_size ≠ ram_size then (false, s) else loadRam s ram_size ts2
      | _ => (false, s)
  | _ => (false, s)

/-! ## Concrete cartridges and state projections used by the theorems -/

/-- Freshly loaded and reset MBC1 cartridge without external RAM. -/
def mkMBC1 (num_rom_banks : Nat) : Cartridge :=
  { crc := 0, num_rom_banks := num_rom_banks, external_ram_size := 0, external_ram := [],
    has_timer := false, rtc := ⟨0, 0, 0, 0, 0, false⟩, external_ram_modified := false,
    mbc := .mbc1 (MBC_MBC1_Reset num_rom_banks) }

/-- Freshly loaded and reset MBC3+timer cartridge without external RAM,
with RTC base time 0 and zero offsets. -/
def mkMBC3 (num_rom_banks : Nat) : Cartridge :=
  { crc := 0, num_rom_banks := num_rom_banks, external_ram_size := 0, external_ram := [],
    has_timer := true, rtc := ⟨0, 0, 0, 0, 0, false⟩, external_ram_modified := false,
    mbc := .mbc3 (MBC_MBC3_Reset num_rom_banks) }

/-- Freshly loaded and reset MBC5 cartridge without external RAM. -/
def mkMBC5 (num_rom_banks : Nat) : Cartridge :=
  { crc := 0, num_rom_banks := num_rom_banks, external_ram_size := 0, external_ram := [],
    has_timer := false, rtc := ⟨0, 0, 0, 0, 0, false⟩, external_ram_modified := false,
    mbc := .mbc5 (MBC_MBC5_Reset num_rom_banks) }

/-- The MBC1 `active_rom_bank` of a cartridge (0 when not MBC1). -/
def mbc1ActiveRomBank (s : Cartridge) : Nat :=
  match s.mbc with
  | .mbc1 d => d.active_rom_bank
  | _ => 0

/-- The MBC1 `ram_enable` flag of a cartridge (false when not MBC1). -/
def mbc1RamEnable (s : Cartridge) : Bool :=
  match s.mbc with
  | .mbc1 d => d.ram_enable
  | _ => false

/-- The MBC5 `active_rom_bank` of a cartridge (0 when not MBC5). -/
def mbc5ActiveRomBank (s : Cartridge) : Nat :=
  match s.mbc with
  | .mbc5 d => d.active_rom_bank
  | _ => 0

/-- The MBC3 latched RTC registers of a cartridge. -/
def mbc3LatchData (s : Cartridge) : LatchData :=
  match s.mbc with
  | .mbc3 d => d.rtc_latch_data
  | _ => ⟨0, 0, 0, 0, 0⟩

/-- The MBC3 latch register `rtc_latch` of a cartridge. -/
def mbc3LatchReg (s : Cartridge) : Nat :=
  match s.mbc with
  | .mbc3 d => d.rtc_latch
  | _ => 0

/-- Two MBC states carry the same variant tag (`m_mbc` equal). -/
def mbcSameKind : MBCData → MBCData → Prop
  | .none, .none => True
  | .mbc1 _, .mbc1 _ => True
  | .mbc3 _, .mbc3 _ => True
  | .mbc5 _, .mbc5 _ => True
  | _, _ => False

/-- The bank-range side condition checked by the `MBC_*_LoadState`
functions: the serialized active bank is below the bank count.  Every
state reachable through the write handlers satisfies it (they clamp). -/
def mbcBankValid : MBCData → Nat → Prop
  | .none, _ => True
  | .mbc1 d, num => d.active_rom_bank < num
  | .mbc3 d, num => d.rom_bank_number < num
  | .mbc5 d, num => d.active_rom_bank < num

/-- Width invariants of the MBC register file (uint8/uint16 fields);
every state reachable through the write handlers satisfies them. -/
def mbcWF : MBCData → Prop
  | .none => True
  | .mbc1 d => d.bank_mode < 256 ∧ d.rom_bank_number < 256 ∧ d.ram_bank_number < 256 ∧
      d.active_rom_bank < 256 ∧ d.active_ram_bank < 256
  | .mbc3 d => d.rom_bank_number < 256 ∧ d.ram_bank_number < 256
  | .mbc5 d => d.rom_bank_number < 65536 ∧ d.ram_bank_number < 256 ∧
      d.active_rom_bank < 65536

/-- Width invariants of the RTC record (u64/u16/u8 fields). -/
def rtcWF (r : RTC_DATA) : Prop :=
  r.base_time < 2 ^ 64 ∧ r.offset_days < 2 ^ 16 ∧ r.offset_hours < 256 ∧
    r.offset_minutes < 256 ∧ r.offset_seconds < 256

/-- Width invariants of the whole cartridge state. -/
def cartWF (s : Cartridge) : Prop :=
  s.crc < 2 ^ 32 ∧ s.external_ram_size < 2 ^ 32 ∧ rtcWF s.rtc ∧ mbcWF s.mbc

/-- The MBC state produced by a successful load of `save(first)` into a
cartridge whose MBC state is `second`: every serialized register comes
from `first`; for MBC3 the latch register and latched data, which are
not serialized, stay those of `second`. -/
def mergeLatch : MBCData → MBCData → MBCData
  | .mbc3 d, .mbc3 t =>
    .mbc3 { d with rtc_latch := t.rtc_latch, rtc_latch_data := t.rtc_latch_data }
  | d, _ => d

/-! ## Scanline rendering (Display::RenderScanline, display.cpp:202-386)

The VRAM snapshot is modelled as a byte-indexed function `Nat → Nat`
and OAM as a list of 40 decoded entries.  The per-pixel loop and the
per-pixel sprite search are structural recursions carrying exactly the
loop state of the source (`bg_x`, `lineOffset`, `bg_tile`). -/

namespace Display

/-- One decoded OAM entry (`OAM_ENTRY`): bytes `y`, `x`, `tile` and the
attribute bits the renderer reads. -/
structure OAM_ENTRY where
  y : Nat
  x : Nat
  tile : Nat
  priority : Bool
  palette : Bool
  hflip : Bool
  vflip : Bool
  deriving DecidableEq

/-- Embedding of `Display::ReadTile` (display.cpp:202-219): decode the
2 bpp palette index of pixel (x, y) of a tile. -/
def ReadTile (vram : Nat → Nat) (high_tileset : Bool) (tile x y : Nat) : Nat :=
  let base := if high_tileset then 0x800 else 0x0
  let byteIndex := y * 2
  let bitIndex := x % 8
  let lo := (vram (base + tile * 16 + byteIndex) >>> (7 - bitIndex)) &&& 0x1
  let hi := (vram (base + tile * 16 + byteIndex + 1) >>> (7 - bitIndex)) &&& 0x1
  (lo ||| (hi <<< 1)) &&& 0x3

/-- The `grayscale_colors` table of `RenderScanline`. -/
def grayscale_colors (i : Nat) : Nat :=
  if i = 0 then 0xFFFFFFFF
  else if i = 1 then 0xFFC0C0C0
  else if i = 2 then 0xFF606060
  else 0xFF000000

/-- The `background_palette` table: entry i is
`grayscale_colors[(BGP >> 2i) & 3]`. -/
def background_palette (BGP i : Nat) : Nat :=
  grayscale_colors ((BGP >>> (2 * i)) &&& 0x3)

/-- The `obj_palette0`/`obj_palette1` tables: entry 0 is the fixed
0xFF555555, entry i >= 1 is `grayscale_colors[(OBP >> 2i) & 3]`. -/
def obj_palette (OBP i : Nat) : Nat :=
  if i = 0 then 0xFF555555 else grayscale_colors ((OBP >>> (2 * i)) &&& 0x3)

/-- The sprite-cull loop of `RenderScanline` (display.cpp:270-286):
drop entries flagged offscreen (x or y equal to 0, x >= 168, y >= 160)
and entries whose y range does not contain the line, in OAM order. -/
def cullSprites (oam : List OAM_ENTRY) (LINE SPRITE_HEIGHT : Nat) : List OAM_ENTRY :=
  oam.filter fun a =>
    decide (¬(a.x = 0 ∨ a.y = 0 ∨ 168 ≤ a.x ∨ 160 ≤ a.y) ∧
      ¬((LINE : Int) < (a.y : Int) - 16 ∨
        ((a.y : Int) - 16) + (SPRITE_HEIGHT : Int) - 1 < (LINE : Int)))

/-- Insert a sprite into a list sorted by ascending X. -/
def insertByX (a : OAM_ENTRY) : List OAM_ENTRY → List OAM_ENTRY
  | [] => [a]
  | b :: rest => if a.x ≤ b.x then a :: b :: rest else b :: insertByX a rest

/-- The X-ascending sprite sort (display.cpp:291-302).  The source uses
`Y_qsort`, which is not stable; this model uses an insertion sort,
which agrees with it whenever the kept X coordinates are pairwise
distinct (true of every input evaluated below). -/
def sortSprites : List OAM_ENTRY → List OAM_ENTRY
  | [] => []
  | a :: rest => insertByX a (sortSprites rest)

/-- The sprite-count cap of display.cpp:305: the source computes
`Max(num_active_sprites, 10)` (the spec notes `Min` was intended). -/
def spriteCap (n : Nat) : Nat := max n 10

/-- The per-pixel sprite loop of `RenderScanline` (display.cpp:336-380):
find the first listed sprite whose x window contains the pixel; a
priority sprite over nonzero background color leaves the color
unchanged (the loop breaks), otherwise the sprite's tile pixel is
decoded (with flips and 8x16 tile-index masking) and looked up in the
selected object palette. -/
def spriteOverlay (vram : Nat → Nat) (SPRITE_SIZE_BIT SPRITE_HEIGHT OBP0 OBP1 : Nat)
    (LINE pixel_x bgcolor_index color : Nat) : List OAM_ENTRY → Nat
  | [] => color
  | sp :: rest =>
    let sprite_start_x : Int := (sp.x : Int) - 8
    let sprite_end_x : Int := sprite_start_x + 7
    if (pixel_x : Int) < sprite_start_x ∨ sprite_end_x < (pixel_x : Int) then
      spriteOverlay vram SPRITE_SIZE_BIT SPRITE_HEIGHT OBP0 OBP1
        LINE pixel_x bgcolor_index color rest
    else if sp.priority ∧ bgcolor_index ≠ 0 then color
    else
      let sprite_start_y : Int := (sp.y : Int) - 16
      let tx0 : Int := (pixel_x : Int) - sprite_start_x
      let ty0 : Int := (LINE : Int) - sprite_start_y
      let tx : Int := if sp.hflip then 15 - tx0 else tx0
      let ty : Int := if sp.vflip then (SPRITE_HEIGHT : Int) - ty0 else ty0
      let tile_index : Nat :=
        if SPRITE_SIZE_BIT ≠ 0 then
          (if ty < 8 then sp.tile &&& 0xFE else sp.tile ||| 0x01)
        else sp.tile
      let palette_index := ReadTile vram false tile_index (tx.toNat % 256) (ty.toNat % 256)
      if sp.palette then obj_palette OBP1 palette_index else obj_palette OBP0 palette_index

/-- The per-pixel loop of `RenderScanline` (display.cpp:310-385),
carrying the background fetch state (`bg_x`, `lineOffset`, `bg_tile`).
Each iteration computes the background color (when LCDC bit 0 is set),
advances the fetch state, applies the sprite overlay (when LCDC bit 1
is set) and emits the pixel. -/
def renderLoop (vram : Nat → Nat) (sprites : List OAM_ENTRY)
    (BGENABLE : Bool) (BGMAPBASE BGMAPOFFSET : Nat) (BGTILESET_SELECT : Bool)
    (SPRITE_SIZE_BIT SPRITE_HEIGHT : Nat) (SPRITE_ENABLE : Bool)
    (BGP OBP0 OBP1 bg_y LINE : Nat) :
    Nat → Nat → Nat → Nat → Nat → List Nat
  | 0, _, _, _, _ => []
  | fuel + 1, pixel_x, bg_x, lineOffset, bg_tile =>
    let step :=
      if BGENABLE then
        let bgidx := ReadTile vram (¬BGTILESET_SELECT) bg_tile bg_x bg_y
        let c := background_palette BGP bgidx
        let bg_x1 := bg_x + 1
        if bg_x1 = 8 then
          let lineOffset1 := (lineOffset + 1) &&& 31
          (c, bgidx, 0, lineOffset1, vram (BGMAPBASE + BGMAPOFFSET + lineOffset1))
        else (c, bgidx, bg_x1, lineOffset, bg_tile)
      else (0xFFFFFFFF, 0, bg_x, lineOffset, bg_tile)
    let color :=
      if SPRITE_ENABLE then
        spriteOverlay vram SPRITE_SIZE_BIT SPRITE_HEIGHT OBP0 OBP1
          LINE pixel_x step.2.1 step.1 sprites
      else step.1
    color :: renderLoop vram sprites BGENABLE BGMAPBASE BGMAPOFFSET BGTILESET_SELECT
      SPRITE_SIZE_BIT SPRITE_HEIGHT SPRITE_ENABLE BGP OBP0 OBP1 bg_y LINE
      fuel (pixel_x + 1) step.2.2.1 step.2.2.2.1 step.2.2.2.2

/-- Embedding of `Display::RenderScanline` (display.cpp:221-386) as the
list of the 160 pixel colors of the line.  When LCDC bit 7 is clear the
line stays at the blanked color.  The sprite list is culled, sorted by
X and capped at `Max(count, 10)` entries exactly as in the source
(`List.take` of more than the length takes the whole list; for fewer
than 10 kept sprites the source reads uninitialised stack entries
there, which has no defined meaning and is not modelled — every input
evaluated below keeps at least 10). -/
def RenderScanline (vram : Nat → Nat) (oam : List OAM_ENTRY)
    (LCDC BGP OBP0 OBP1 SCX SCY LY : Nat) : List Nat :=
  if LCDC &&& 0x80 = 0 then List.replicate 160 0xFFFFFFFF
  else
    let BGENABLE := LCDC &&& 0x01 ≠ 0
    let BGMAPBASE := if LCDC &&& 0x08 ≠ 0 then 0x1C00 else 0x1800
    let BGTILESET_SELECT := LCDC &&& 0x10 ≠ 0
    let SPRITE_SIZE_BIT := (LCDC >>> 2) &&& 0x1
    let SPRITE_HEIGHT := 8 + SPRITE_SIZE_BIT * 8
    let SPRITE_ENABLE := LCDC &&& 0x02 ≠ 0
    let BGMAPOFFSET := (((LY + SCY) &&& 255) >>> 3) <<< 5
    let lineOffset := SCX >>> 3
    let bg_x := SCX &&& 7
    let bg_y := (LY + SCY) &&& 7
    let bg_tile := vram (BGMAPBASE + BGMAPOFFSET + lineOffset)
    let culled := if SPRITE_ENABLE then cullSprites oam LY SPRITE_HEIGHT else []
    let sprites :=
      if 0 < culled.length then (sortSprites culled).take (spriteCap culled.length)
      else culled
    renderLoop vram sprites BGENABLE BGMAPBASE BGMAPOFFSET BGTILESET_SELECT
      SPRITE_SIZE_BIT SPRITE_HEIGHT SPRITE_ENABLE BGP OBP0 OBP1 bg_y LY
      160 0 bg_x lineOffset bg_tile

/-- Eleven OAM entries covering scanline 10 (OAM y = 20, so sprite rows
4..11), at distinct X positions 8, 16, ..., 88; entry i covers pixels
8i..8i+7, so pixels 80..87 are covered only by the eleventh sprite in
X order. -/
def elevenSprites : List OAM_ENTRY :=
  [⟨20, 8, 0, false, false, false, false⟩,
   ⟨20, 16, 0, false, false, false, false⟩,
   ⟨20, 24, 0, false, false, false, false⟩,
   ⟨20, 32, 0, false, false, false, false⟩,
   ⟨20, 40, 0, false, false, false, false⟩,
   ⟨20, 48, 0, false, false, false, false⟩,
   ⟨20, 56, 0, false, false, false, false⟩,
   ⟨20, 64, 0, false, false, false, false⟩,
   ⟨20, 72, 0, false, false, false, false⟩,
   ⟨20, 80, 0, false, false, false, false⟩,
   ⟨20, 88, 0, false, false, false, false⟩]

end Display

/-! ## Helper lemmas for the PPU frame-timing proof -/

namespace Display

set_option maxRecDepth 16384

theorem runN_add (a b : Nat) (s : DState) : runN (a + b) s = runN b (runN a s) := by
  induction a generalizing s with
  | zero => simp [runN]
  | succ a ih =>
    rw [Nat.succ_add]
    simp only [runN]
    exact ih (Step s)

theorem Step_idle (s : DState) (hm : s.mode < 4) (hc : 2 ≤ s.clocks) :
    Step s = { s with clocks := s.clocks - 1 } := by
  obtain ⟨m, cl, L, ly, lyc, σ, f, v, c⟩ := s
  simp only at hm hc
  have hne : cl - 1 ≠ 0 := by omega
  interval_cases m <;> simp [Step, hne]

theorem runN_idle (k : Nat) : ∀ (s : DState), s.mode < 4 → k < s.clocks →
    runN k s = { s with clocks := s.clocks - k } := by
  induction k with
  | zero => intro s _ _; simp [runN]
  | succ k ih =>
    intro s hm hc
    simp only [runN]
    rw [Step_idle s hm (by omega)]
    rw [ih _ (by simpa using hm) (by simp; omega)]
    simp
    omega

theorem run456_even (L f v c : Nat) (hL : L ≤ 142) :
    runN 456 (⟨2, 80, L, L, 0, 2, f, v, c⟩ : DState) =
      ⟨2, 80, L + 1, L + 1, 0, 6, f, v, c⟩ := by
  have h256 : (L + 1) % 256 = L + 1 := Nat.mod_eq_of_lt (by omega)
  have h144 : ¬(L + 1 = 144) := by omega
  have h01 : ¬((0 : Nat) = L + 1) := by omega
  have bA : (2 : Nat) &&& 252 ||| 3 = 3 := by decide
  have bB : (3 : Nat) &&& 252 ||| 0 = 0 := by decide
  have bC : (0 : Nat) &&& 8 = 0 := by decide
  have bD : (0 : Nat) &&& 4 = 0 := by decide
  have bE : (1 : Nat) <<< 2 = 4 := by decide
  have bF : (0 : Nat) &&& 251 ||| 4 = 4 := by decide
  have bG : (4 : Nat) &&& 64 = 0 := by decide
  have bH : (4 : Nat) &&& 252 ||| 2 = 6 := by decide
  have bI : (6 : Nat) &&& 32 = 0 := by decide
  have bJ : (2 : Nat) &&& 3 = 2 := by decide
  have e1 : runN 79 (⟨2, 80, L, L, 0, 2, f, v, c⟩ : DState) =
      ⟨2, 1, L, L, 0, 2, f, v, c⟩ := by
    exact (runN_idle 79 (⟨2, 80, L, L, 0, 2, f, v, c⟩ : DState) (of_decide_eq_true rfl)
      (of_decide_eq_true rfl)).trans rfl
  have e2 : runN 1 (⟨2, 1, L, L, 0, 2, f, v, c⟩ : DState) =
      ⟨3, 172, L, L, 0, 3, f, v, c⟩ := by
    simp [runN, Step, SetMode, bA]
  have e3 : runN 171 (⟨3, 172, L, L, 0, 3, f, v, c⟩ : DState) =
      ⟨3, 1, L, L, 0, 3, f, v, c⟩ := by
    exact (runN_idle 171 (⟨3, 172, L, L, 0, 3, f, v, c⟩ : DState) (of_decide_eq_true rfl)
      (of_decide_eq_true rfl)).trans rfl
  have e4 : runN 1 (⟨3, 1, L, L, 0, 3, f, v, c⟩ : DState) =
      ⟨0, 204, L, L, 0, 0, f, v, c⟩ := by
    simp [runN, Step, SetMode, bB, bC]
  have e5 : runN 203 (⟨0, 204, L, L, 0, 0, f, v, c⟩ : DState) =
      ⟨0, 1, L, L, 0, 0, f, v, c⟩ := by
    exact (runN_idle 203 (⟨0, 204, L, L, 0, 0, f, v, c⟩ : DState) (of_decide_eq_true rfl)
      (of_decide_eq_true rfl)).trans rfl
  have e6 : runN 1 (⟨0, 1, L, L, 0, 0, f, v, c⟩ : DState) =
      ⟨2, 80, L + 1, L + 1, 0, 6, f, v, c⟩ := by
    simp [runN, Step, SetScanline, SetMode, h256, h01, h144, bD, bE, bF, bG, bH, bI, bJ]
  rw [show (456 : Nat) = 79 + 1 + 171 + 1 + 203 + 1 from rfl]
  rw [runN_add, runN_add, runN_add, runN_add, runN_add]
  rw [e1, e2, e3, e4, e5, e6]

theorem run456_odd (L f v c : Nat) (hL : L ≤ 142) (hO : L % 2 = 1) :
    runN 456 (⟨2, 80, L, L, 0, 6, f, v, c⟩ : DState) =
      ⟨2, 80, L + 1, L + 1, 0, 2, f, v, c⟩ := by
  have h01 : ¬((0 : Nat) = L + 1) := by omega
  have h144 : ¬(L + 1 = 144) := by omega
  have bA : (6 : Nat) &&& 252 ||| 3 = 7 := by decide
  have bB : (7 : Nat) &&& 252 ||| 0 = 4 := by decide
  have bC : (4 : Nat) &&& 8 = 0 := by decide
  have bD : (4 : Nat) &&& 251 = 0 := by decide
  have bE : (2 : Nat) &&& 32 = 0 := by decide
  have bF : (2 : Nat) &&& 3 = 2 := by decide
  have e1 : runN 79 (⟨2, 80, L, L, 0, 6, f, v, c⟩ : DState) =
      ⟨2, 1, L, L, 0, 6, f, v, c⟩ := by
    exact (runN_idle 79 (⟨2, 80, L, L, 0, 6, f, v, c⟩ : DState) (of_decide_eq_true rfl)
      (of_decide_eq_true rfl)).trans rfl
  have e2 : runN 1 (⟨2, 1, L, L, 0, 6, f, v, c⟩ : DState) =
      ⟨3, 172, L, L, 0, 7, f, v, c⟩ := by
    simp [runN, Step, SetMode, bA]
  have e3 : runN 171 (⟨3, 172, L, L, 0, 7, f, v, c⟩ : DState) =
      ⟨3, 1, L, L, 0, 7, f, v, c⟩ := by
    exact (runN_idle 171 (⟨3, 172, L, L, 0, 7, f, v, c⟩ : DState) (of_decide_eq_true rfl)
      (of_decide_eq_true rfl)).trans rfl
  have e4 : runN 1 (⟨3, 1, L, L, 0, 7, f, v, c⟩ : DState) =
      ⟨0, 204, L, L, 0, 4, f, v, c⟩ := by
    simp [runN, Step, SetMode, bB, bC]
  have e5 : runN 203 (⟨0, 204, L, L, 0, 4, f, v, c⟩ : DState) =
      ⟨0, 1, L, L, 0, 4, f, v, c⟩ := by
    exact (runN_idle 203 (⟨0, 204, L, L, 0, 4, f, v, c⟩ : DState) (of_decide_eq_true rfl)
      (of_decide_eq_true rfl)).trans rfl
  have h256 : (L + 1) % 256 = L + 1 := Nat.mod_eq_of_lt (by omega)
  have e6 : runN 1 (⟨0, 1, L, L, 0, 4, f, v, c⟩ : DState) =
      ⟨2, 80, L + 1, L + 1, 0, 2, f, v, c⟩ := by
    simp [runN, Step, SetScanline, SetMode, h256, h01, h144, bD, bE, bF]
  rw [show (456 : Nat) = 79 + 1 + 171 + 1 + 203 + 1 from rfl]
  rw [runN_add, runN_add, runN_add, runN_add, runN_add]
  rw [e1, e2, e3, e4, e5, e6]

theorem run455_143 (f v c : Nat) :
    runN 455 (⟨2, 80, 143, 143, 0, 6, f, v, c⟩ : DState) =
      ⟨0, 1, 143, 143, 0, 4, f, v, c⟩ := by
  have bA : (6 : Nat) &&& 252 ||| 3 = 7 := by decide
  have bB : (7 : Nat) &&& 252 ||| 0 = 4 := by decide
  have bC : (4 : Nat) &&& 8 = 0 := by decide
  have e1 : runN 79 (⟨2, 80, 143, 143, 0, 6, f, v, c⟩ : DState) =
      ⟨2, 1, 143, 143, 0, 6, f, v, c⟩ := by
    exact (runN_idle 79 (⟨2, 80, 143, 143, 0, 6, f, v, c⟩ : DState) (of_decide_eq_true rfl)
      (of_decide_eq_true rfl)).trans rfl
  have e2 : runN 1 (⟨2, 1, 143, 143, 0, 6, f, v, c⟩ : DState) =
      ⟨3, 172, 143, 143, 0, 7, f, v, c⟩ := by
    simp [runN, Step, SetMode, bA]
  have e3 : runN 171 (⟨3, 172, 143, 143, 0, 7, f, v, c⟩ : DState) =
      ⟨3, 1, 143, 143, 0, 7, f, v, c⟩ := by
    exact (runN_idle 171 (⟨3, 172, 143, 143, 0, 7, f, v, c⟩ : DState)
      (of_decide_eq_true rfl) (of_decide_eq_true rfl)).trans rfl
  have e4 : runN 1 (⟨3, 1, 143, 143, 0, 7, f, v, c⟩ : DState) =
      ⟨0, 204, 143, 143, 0, 4, f, v, c⟩ := by
    simp [runN, Step, SetMode, bB, bC]
  have e5 : runN 203 (⟨0, 204, 143, 143, 0, 4, f, v, c⟩ : DState) =
      ⟨0, 1, 143, 143, 0, 4, f, v, c⟩ := by
    exact (runN_idle 203 (⟨0, 204, 143, 143, 0, 4, f, v, c⟩ : DState)
      (of_decide_eq_true rfl) (of_decide_eq_true rfl)).trans rfl
  rw [show (455 : Nat) = 79 + 1 + 171 + 1 + 203 from rfl]
  rw [runN_add, runN_add, runN_add, runN_add]
  rw [e1, e2, e3, e4, e5]

theorem run456_143 (f v c : Nat) :
    runN 456 (⟨2, 80, 143, 143, 0, 6, f, v, c⟩ : DState) =
      ⟨1, 456, 144, 144, 0, 1, f + 1, v + 1, c⟩ := by
  have bD : (4 : Nat) &&& 251 = 0 := by decide
  have bE : (1 : Nat) &&& 3 = 1 := by decide
  have bF : (1 : Nat) &&& 16 = 0 := by decide
  have e6 : runN 1 (⟨0, 1, 143, 143, 0, 4, f, v, c⟩ : DState) =
      ⟨1, 456, 144, 144, 0, 1, f + 1, v + 1, c⟩ := by
    simp [runN, Step, SetScanline, SetMode, bD, bE, bF]
  rw [show (456 : Nat) = 455 + 1 from rfl]
  rw [runN_add, run455_143, e6]

theorem run456_vb_even (L f v c : Nat) (hL : 144 ≤ L) (hL2 : L ≤ 152) :
    runN 456 (⟨1, 456, L, L, 0, 1, f, v, c⟩ : DState) =
      ⟨1, 456, L + 1, L + 1, 0, 5, f, v, c⟩ := by
  have h256 : (L + 1) % 256 = L + 1 := Nat.mod_eq_of_lt (by omega)
  have h01 : ¬((0 : Nat) = L + 1) := by omega
  have h154 : ¬(L + 1 = 154) := by omega
  have bA : (1 : Nat) &&& 4 = 0 := by decide
  have bB : (1 : Nat) &&& 251 = 1 := by decide
  have bC : (1 : Nat) <<< 2 = 4 := by decide
  have bD : (1 : Nat) ||| 4 = 5 := by decide
  have bE : (5 : Nat) &&& 64 = 0 := by decide
  have e1 : runN 455 (⟨1, 456, L, L, 0, 1, f, v, c⟩ : DState) =
      ⟨1, 1, L, L, 0, 1, f, v, c⟩ := by
    exact (runN_idle 455 (⟨1, 456, L, L, 0, 1, f, v, c⟩ : DState) (of_decide_eq_true rfl)
      (of_decide_eq_true rfl)).trans rfl
  have e2 : runN 1 (⟨1, 1, L, L, 0, 1, f, v, c⟩ : DState) =
      ⟨1, 456, L + 1, L + 1, 0, 5, f, v, c⟩ := by
    simp [runN, Step, SetScanline, h256, h01, h154, bA, bB, bC, bD, bE]
  rw [show (456 : Nat) = 455 + 1 from rfl]
  rw [runN_add, e1, e2]

theorem run456_vb_odd (L f v c : Nat) (hL : 144 ≤ L) (hL2 : L ≤ 152) :
    runN 456 (⟨1, 456, L, L, 0, 5, f, v, c⟩ : DState) =
      ⟨1, 456, L + 1, L + 1, 0, 1, f, v, c⟩ := by
  have h256 : (L + 1) % 256 = L + 1 := Nat.mod_eq_of_lt (by omega)
  have h01 : ¬((0 : Nat) = L + 1) := by omega
  have h154 : ¬(L + 1 = 154) := by omega
  have bA : (5 : Nat) &&& 4 = 4 := by decide
  have bB : (5 : Nat) &&& 251 = 1 := by decide
  have e1 : runN 455 (⟨1, 456, L, L, 0, 5, f, v, c⟩ : DState) =
      ⟨1, 1, L, L, 0, 5, f, v, c⟩ := by
    exact (runN_idle 455 (⟨1, 456, L, L, 0, 5, f, v, c⟩ : DState) (of_decide_eq_true rfl)
      (of_decide_eq_true rfl)).trans rfl
  have e2 : runN 1 (⟨1, 1, L, L, 0, 5, f, v, c⟩ : DState) =
      ⟨1, 456, L + 1, L + 1, 0, 1, f, v, c⟩ := by
    simp [runN, Step, SetScanline, h256, h01, h154, bA, bB]
  rw [show (456 : Nat) = 455 + 1 from rfl]
  rw [runN_add, e1, e2]

theorem run456_153 (f v c : Nat) :
    runN 456 (⟨1, 456, 153, 153, 0, 5, f, v, c⟩ : DState) =
      ⟨2, 80, 0, 0, 0, 2, f, v, c⟩ := by
  have bA : (5 : Nat) &&& 4 = 4 := by decide
  have bB : (5 : Nat) &&& 251 = 1 := by decide
  have bC : (1 : Nat) &&& 252 = 0 := by decide
  have bD : (2 : Nat) &&& 3 = 2 := by decide
  have bE : (2 : Nat) &&& 32 = 0 := by decide
  have bF : (2 : Nat) &&& 251 = 2 := by decide
  have bG : (2 : Nat) &&& 4 = 0 := by decide
  have e1 : runN 455 (⟨1, 456, 153, 153, 0, 5, f, v, c⟩ : DState) =
      ⟨1, 1, 153, 153, 0, 5, f, v, c⟩ := by
    exact (runN_idle 455 (⟨1, 456, 153, 153, 0, 5, f, v, c⟩ : DState)
      (of_decide_eq_true rfl) (of_decide_eq_true rfl)).trans rfl
  have e2 : runN 1 (⟨1, 1, 153, 153, 0, 5, f, v, c⟩ : DState) =
      ⟨2, 80, 0, 0, 0, 2, f, v, c⟩ := by
    simp [runN, Step, SetScanline, SetMode, bA, bB, bC, bD, bE, bF, bG]
  rw [show (456 : Nat) = 455 + 1 from rfl]
  rw [runN_add, e1, e2]

theorem startLine : ∀ L, L ≤ 143 →
    runN (456 * L) Reset =
      ⟨2, 80, L, L, 0, if L % 2 = 0 then 2 else 6, 0, 0, 0⟩ := by
  intro L
  induction L with
  | zero =>
    intro _
    have bA : (2 : Nat) &&& 3 = 2 := by decide
    have bB : (2 : Nat) &&& 32 = 0 := by decide
    simp [runN, Reset, SetMode, bA, bB]
  | succ L ih =>
    intro hL
    rw [show 456 * (L + 1) = 456 * L + 456 from by ring]
    rw [runN_add, ih (by omega)]
    rcases Nat.even_or_odd L with hE | hO
    · have h2 : L % 2 = 0 := Nat.even_iff.mp hE
      rw [if_pos h2, run456_even L 0 0 0 (by omega), if_neg (by omega)]
    · have h2 : L % 2 = 1 := Nat.odd_iff.mp hO
      rw [if_neg (by omega), run456_odd L 0 0 0 (by omega) h2, if_pos (by omega)]

theorem vbLines : ∀ k, k ≤ 9 →
    runN (456 * k) (⟨1, 456, 144, 144, 0, 1, 1, 1, 0⟩ : DState) =
      ⟨1, 456, 144 + k, 144 + k, 0, if k % 2 = 0 then 1 else 5, 1, 1, 0⟩ := by
  intro k
  induction k with
  | zero => intro _; simp [runN]
  | succ k ih =>
    intro hk
    rw [show 456 * (k + 1) = 456 * k + 456 from by ring]
    rw [runN_add, ih (by omega)]
    rcases Nat.even_or_odd k with hE | hO
    · have h2 : k % 2 = 0 := Nat.even_iff.mp hE
      rw [if_pos h2, run456_vb_even (144 + k) 1 1 0 (by omega) (by omega),
        if_neg (by omega)]
      congr 1
    · have h2 : k % 2 = 1 := Nat.odd_iff.mp hO
      rw [if_neg (by omega), run456_vb_odd (144 + k) 1 1 0 (by omega) (by omega),
        if_pos (by omega)]
      congr 1

theorem SetMode_frames (m : Nat) (s : DState) : (SetMode m s).frames = s.frames := by
  simp only [SetMode]
  split_ifs <;> rfl

theorem SetMode_vblanks_ge (m : Nat) (s : DState) : s.vblanks ≤ (SetMode m s).vblanks := by
  simp only [SetMode]
  split_ifs <;> simp

theorem SetScanline_frames (v : Nat) (s : DState) : (SetScanline v s).frames = s.frames := by
  simp only [SetScanline]
  split_ifs <;> rfl

theorem SetScanline_vblanks (v : Nat) (s : DState) :
    (SetScanline v s).vblanks = s.vblanks := by
  simp only [SetScanline]
  split_ifs <;> rfl

theorem Step_frames_mono (s : DState) : s.frames ≤ (Step s).frames := by
  simp only [Step]
  split_ifs <;> simp [SetMode_frames, SetScanline_frames]

theorem Step_vblanks_mono (s : DState) : s.vblanks ≤ (Step s).vblanks := by
  by_cases h2 : s.mode = 2
  · by_cases hc : s.clocks - 1 = 0
    · simpa [Step, h2, hc] using SetMode_vblanks_ge 3 { s with clocks := 172 }
    · simp [Step, h2, hc]
  · by_cases h3 : s.mode = 3
    · by_cases hc : s.clocks - 1 = 0
      · simpa [Step, h2, h3, hc] using SetMode_vblanks_ge 0 { s with clocks := 204 }
      · simp [Step, h2, h3, hc]
    · by_cases h0 : s.mode = 0
      · by_cases hc : s.clocks - 1 = 0
        · by_cases h144 : (SetScanline (s.line + 1) s).line = 144
          · have h := le_trans (Nat.le_of_eq (SetScanline_vblanks (s.line + 1) s).symm)
              (SetMode_vblanks_ge 1 { SetScanline (s.line + 1) s with clocks := 456 })
            simpa [Step, h2, h3, h0, hc, h144] using h
          · have h := le_trans (Nat.le_of_eq (SetScanline_vblanks (s.line + 1) s).symm)
              (SetMode_vblanks_ge 2 { SetScanline (s.line + 1) s with clocks := 80 })
            simpa [Step, h2, h3, h0, hc, h144] using h
        · simp [Step, h2, h3, h0, hc]
      · by_cases h1 : s.mode = 1
        · by_cases hc : s.clocks - 1 = 0
          · by_cases h154 : (SetScanline (s.line + 1) s).line = 154
            · have h := le_trans (le_trans
                (Nat.le_of_eq (SetScanline_vblanks (s.line + 1) s).symm)
                (SetMode_vblanks_ge 2 { SetScanline (s.line + 1) s with clocks := 80 }))
                (Nat.le_of_eq (SetScanline_vblanks 0
                  (SetMode 2 { SetScanline (s.line + 1) s with clocks := 80 })).symm)
              simpa [Step, h2, h3, h0, h1, hc, h154] using h
            · simpa [Step, h2, h3, h0, h1, hc, h154] using
                Nat.le_of_eq (SetScanline_vblanks (s.line + 1) s).symm
          · simp [Step, h2, h3, h0, h1, hc]
        · simp [Step, h2, h3, h0, h1]

theorem runN_counts_mono (k : Nat) : ∀ s : DState,
    s.frames ≤ (runN k s).frames ∧ s.vblanks ≤ (runN k s).vblanks := by
  induction k with
  | zero => intro s; simp [runN]
  | succ k ih =>
    intro s
    simp only [runN]
    exact ⟨le_trans (Step_frames_mono s) (ih (Step s)).1,
           le_trans (Step_vblanks_mono s) (ih (Step s)).2⟩

end Display

/-! ## Claim theorems -/

set_option maxRecDepth 16384

/-- Claim C1: starting from the freshly-reset PPU state (mode 2, 80
clocks remaining, scanline 0), executing exactly 70,224 `Display::Step`
T-cycles produces exactly one frame-ready (`pushFrameBuffer`) edge, and
over that interval the VBlank interrupt is requested exactly once, at
the step in which the scanline counter reaches 144 (T-cycle 65,664):
both event counters are monotone along the run, 0 after 65,663 steps,
1 after 65,664 steps, and still 1 after all 70,224 steps. -/
theorem C1_ppu_frame_timing :
    (∀ n m : Nat, n ≤ m →
      (Display.runN n Display.Reset).frames ≤ (Display.runN m Display.Reset).frames ∧
      (Display.runN n Display.Reset).vblanks ≤ (Display.runN m Display.Reset).vblanks) ∧
    (Display.runN 65663 Display.Reset).frames = 0 ∧
    (Display.runN 65663 Display.Reset).vblanks = 0 ∧
    (Display.runN 65664 Display.Reset).frames = 1 ∧
    (Display.runN 65664 Display.Reset).vblanks = 1 ∧
    (Display.runN 70224 Display.Reset).frames = 1 ∧
    (Display.runN 70224 Display.Reset).vblanks = 1 := by
  have hmono : ∀ n m : Nat, n ≤ m →
      (Display.runN n Display.Reset).frames ≤ (Display.runN m Display.Reset).frames ∧
      (Display.runN n Display.Reset).vblanks ≤ (Display.runN m Display.Reset).vblanks := by
    intro n m hnm
    have h := Display.runN_counts_mono (m - n) (Display.runN n Display.Reset)
    rw [← Display.runN_add] at h
    rwa [Nat.add_sub_cancel' hnm] at h
  have h143 : Display.runN 65208 Display.Reset = ⟨2, 80, 143, 143, 0, 6, 0, 0, 0⟩ := by
    have h := Display.startLine 143 (by omega)
    rw [show 456 * 143 = 65208 from rfl] at h
    simpa using h
  have h65663 : Display.runN 65663 Display.Reset = ⟨0, 1, 143, 143, 0, 4, 0, 0, 0⟩ := by
    rw [show (65663 : Nat) = 65208 + 455 from rfl, Display.runN_add, h143,
      Display.run455_143]
  have h65664 : Display.runN 65664 Display.Reset = ⟨1, 456, 144, 144, 0, 1, 1, 1, 0⟩ := by
    rw [show (65664 : Nat) = 65208 + 456 from rfl, Display.runN_add, h143,
      Display.run456_143]
  have h69768 : Display.runN 69768 Display.Reset = ⟨1, 456, 153, 153, 0, 5, 1, 1, 0⟩ := by
    rw [show (69768 : Nat) = 65664 + 456 * 9 from rfl, Display.runN_add, h65664]
    have h := Display.vbLines 9 (by omega)
    simpa using h
  have h70224 : Display.runN 70224 Display.Reset = ⟨2, 80, 0, 0, 0, 2, 1, 1, 0⟩ := by
    rw [show (70224 : Nat) = 69768 + 456 from rfl, Display.runN_add, h69768,
      Display.run456_153]
  refine ⟨hmono, ?_, ?_, ?_, ?_, ?_, ?_⟩ <;> simp [h65663, h65664, h70224]

/-- Claim C1, witness: the monotonicity clause of the frame-timing
theorem applied at the VBlank edge and the end of the frame. -/
theorem C1_ppu_frame_timing_witness :
    (Display.runN 65664 Display.Reset).frames ≤
      (Display.runN 70224 Display.Reset).frames :=
  (C1_ppu_frame_timing.1 65664 70224 (by norm_num)).1

/-- Claim C2, counterexample: on a freshly-reset 256-bank MBC1
cartridge, the write sequence 0x2000←0x20, 0x4000←0x00, 0x6000←0x00
yields `active_rom_bank` = 0x01, not 0x21: the claim's own formula
gives `(0 << 5) | (0x20 & 0x1F) = 0`, which the 0x00→0x01 remap turns
into 1. -/
theorem C2_mbc1_quirk_counterexample :
    mbc1ActiveRomBank (CPUWrite 0 (CPUWrite 0 (CPUWrite 0 (mkMBC1 256) 0x2000 0x20)
      0x4000 0x00) 0x6000 0x00) = 0x01 ∧ (0x01 : Nat) ≠ 0x21 := by decide

/-- Claim C2, amended: for an MBC1 cartridge after reset (any bank
count at least 2), writing 0x00 to the 0x2000–0x3FFF window yields
`active_rom_bank` = 1, and the write sequence 0x2000←0x20, 0x4000←0x00,
0x6000←0x00 also yields `active_rom_bank` = 0x01 (the combined bank-mode-0
selector `(ram_or_upper_rom_bank << 5) | (rom_bank_lo & 0x1F)` is 0 and
is incremented to 1 by the 0x00/0x20/0x40/0x60 remap). -/
theorem C2_mbc1_quirk_amended (num : Nat) (h : 2 ≤ num) :
    mbc1ActiveRomBank (CPUWrite 0 (mkMBC1 num) 0x2000 0x00) = 0x01 ∧
    mbc1ActiveRomBank (CPUWrite 0 (CPUWrite 0 (CPUWrite 0 (mkMBC1 num) 0x2000 0x20)
      0x4000 0x00) 0x6000 0x00) = 0x01 := by
  have hclamp : ¬(1 ≥ num) := by omega
  have b1 : (0 : Nat) <<< 5 = 0 := by decide
  have b2 : (1 : Nat) &&& 31 = 1 := by decide
  have b3 : (32 : Nat) &&& 31 = 0 := by decide
  have b4 : (0 : Nat) &&& 31 = 0 := by decide
  constructor
  · simp [CPUWrite, mkMBC1, MBC_MBC1_Reset, MBC_MBC1_UpdateActiveBanks, MBC_MBC1_Write,
      mbc1ActiveRomBank, hclamp, b1, b2, b3, b4]
  · simp [CPUWrite, mkMBC1, MBC_MBC1_Reset, MBC_MBC1_UpdateActiveBanks, MBC_MBC1_Write,
      mbc1ActiveRomBank, hclamp, b1, b2, b3, b4]

/-- Claim C2, witness: the amended claim evaluated on an 8-bank MBC1
cartridge. -/
theorem C2_mbc1_quirk_witness :
    mbc1ActiveRomBank (CPUWrite 0 (mkMBC1 8) 0x2000 0x00) = 0x01 ∧
    mbc1ActiveRomBank (CPUWrite 0 (CPUWrite 0 (CPUWrite 0 (mkMBC1 8) 0x2000 0x20)
      0x4000 0x00) 0x6000 0x00) = 0x01 :=
  C2_mbc1_quirk_amended 8 (by norm_num)

/-- Claim C3, counterexample: two MBC3 cartridge states on the same ROM
that differ only in the latched RTC registers; loading the state saved
from the first into the second succeeds but does not restore the first
state, because `MBC_MBC3_SaveState` does not serialize `rtc_latch` or
`rtc_latch_data`. -/
theorem C3_roundtrip_counterexample :
    (LoadState
        ⟨0, 2, 0, [], false, ⟨0, 0, 0, 0, 0, false⟩, false,
          .mbc3 ⟨false, 1, 0, 0, ⟨0, 0, 0, 0, 0⟩⟩⟩
        (SaveState
          ⟨0, 2, 0, [], false, ⟨0, 0, 0, 0, 0, false⟩, false,
            .mbc3 ⟨false, 1, 0, 0, ⟨9, 0, 0, 0, 0⟩⟩⟩)).1 = true ∧
    (LoadState
        ⟨0, 2, 0, [], false, ⟨0, 0, 0, 0, 0, false⟩, false,
          .mbc3 ⟨false, 1, 0, 0, ⟨0, 0, 0, 0, 0⟩⟩⟩
        (SaveState
          ⟨0, 2, 0, [], false, ⟨0, 0, 0, 0, 0, false⟩, false,
            .mbc3 ⟨false, 1, 0, 0, ⟨9, 0, 0, 0, 0⟩⟩⟩)).2 ≠
      ⟨0, 2, 0, [], false, ⟨0, 0, 0, 0, 0, false⟩, false,
        .mbc3 ⟨false, 1, 0, 0, ⟨9, 0, 0, 0, 0⟩⟩⟩ := by decide

/-- Claim C3, amended: loading `save_state(S)` into any same-ROM
cartridge state T (same CRC, RAM size, MBC kind and bank count, with S
well-formed and its serialized bank in range) succeeds and restores S
exactly, except that the dirty flag `external_ram_modified` and, for
MBC3, the unserialized `rtc_latch`/`rtc_latch_data` keep T's values.
In particular `load_state(save_state(S)) = S` holds iff T agrees with S
on those components. -/
theorem C3_roundtrip_amended (S T : Cartridge)
    (hwf : cartWF S)
    (hvalid : mbcBankValid S.mbc T.num_rom_banks)
    (hkind : mbcSameKind T.mbc S.mbc)
    (hcrc : T.crc = S.crc)
    (hsize : T.external_ram_size = S.external_ram_size)
    (hram : S.external_ram_size = 0 → T.external_ram = S.external_ram)
    (htimer : T.has_timer = S.has_timer)
    (hrtc : S.has_timer = false → T.rtc = S.rtc)
    (hnum : T.num_rom_banks = S.num_rom_banks) :
    LoadState T (SaveState S) =
      (true, { S with external_ram_modified := T.external_ram_modified,
                      mbc := mergeLatch S.mbc T.mbc }) := by
  obtain ⟨crcS, numS, sizeS, ramS, htS, rtcS, modS, mbcS⟩ := S
  obtain ⟨crcT, numT, sizeT, ramT, htT, rtcT, modT, mbcT⟩ := T
  obtain ⟨hw1, hw2, ⟨hr1, hr2, hr3, hr4, hr5⟩, hwmbc⟩ := hwf
  simp only at hvalid hkind hcrc hsize hram htimer hrtc hnum hwmbc hw1 hw2 hr1 hr2 hr3 hr4 hr5 ⊢
  subst hcrc hsize htimer hnum
  have hm1 : crcT % 2 ^ 32 = crcT := Nat.mod_eq_of_lt hw1
  have hm2 : sizeT % 2 ^ 32 = sizeT := Nat.mod_eq_of_lt hw2
  have hm3 : rtcS.base_time % 2 ^ 64 = rtcS.base_time := Nat.mod_eq_of_lt hr1
  have hm4 : rtcS.offset_days % 2 ^ 16 = rtcS.offset_days := Nat.mod_eq_of_lt hr2
  have hm5 : rtcS.offset_hours % 256 = rtcS.offset_hours := Nat.mod_eq_of_lt hr3
  have hm6 : rtcS.offset_minutes % 256 = rtcS.offset_minutes := Nat.mod_eq_of_lt hr4
  have hm7 : rtcS.offset_seconds % 256 = rtcS.offset_seconds := Nat.mod_eq_of_lt hr5
  cases mbcS <;> cases mbcT <;> simp only [mbcSameKind] at hkind <;>
    rcases Nat.eq_zero_or_pos sizeT with hsz | hsz <;>
    cases htT <;>
    simp_all [SaveState, LoadState, loadRam, loadTimer, loadMbcKind, loadMbc, loadTrail,
      mbcSaveToks, MBC_MBC1_SaveState, MBC_MBC3_SaveState, MBC_MBC5_SaveState,
      mbcTypeCode, mergeLatch, mbcWF, mbcBankValid, Nat.mod_eq_of_lt]

/-- Claim C3, witness: the amended round trip evaluated on a concrete
MBC1 cartridge loading its own save into itself. -/
theorem C3_roundtrip_witness :
    LoadState ⟨0, 2, 0, [], false, ⟨0, 0, 0, 0, 0, false⟩, false,
        .mbc1 ⟨false, 0, 1, 0, 1, 0⟩⟩
      (SaveState ⟨0, 2, 0, [], false, ⟨0, 0, 0, 0, 0, false⟩, false,
        .mbc1 ⟨false, 0, 1, 0, 1, 0⟩⟩) =
      (true, ⟨0, 2, 0, [], false, ⟨0, 0, 0, 0, 0, false⟩, false,
        .mbc1 ⟨false, 0, 1, 0, 1, 0⟩⟩) := by
  have h := C3_roundtrip_amended
    ⟨0, 2, 0, [], false, ⟨0, 0, 0, 0, 0, false⟩, false, .mbc1 ⟨false, 0, 1, 0, 1, 0⟩⟩
    ⟨0, 2, 0, [], false, ⟨0, 0, 0, 0, 0, false⟩, false, .mbc1 ⟨false, 0, 1, 0, 1, 0⟩⟩
    (by simp [cartWF, rtcWF, mbcWF])
    (by simp [mbcBankValid])
    (by simp [mbcSameKind])
    rfl rfl (fun _ => rfl) rfl (fun _ => rfl) rfl
  simpa [mergeLatch] using h

/-- Claim C4: if the leading u32 CRC of a save-state stream differs
from the loaded cartridge's ROM CRC, `LoadState` fails and the entire
cartridge state is unchanged (the CRC gate is the first check, before
any mutation). -/
theorem C4_crc_gate (S : Cartridge) (c : Nat) (rest : List Tok) (h : c ≠ S.crc) :
    LoadState S (Tok.u32 c :: rest) = (false, S) := by
  simp [LoadState, h]

/-- Claim C4, witness: the CRC gate evaluated on a concrete cartridge
and mismatching stream. -/
theorem C4_crc_gate_witness :
    LoadState (mkMBC1 2) [Tok.u32 1] = (false, mkMBC1 2) :=
  C4_crc_gate (mkMBC1 2) 1 [] (by decide)

/-- Claim C5, failing input: with STAT = 0x00 (bit 2 clear) and
LYC = 5, `Display::SetScanline(3)` sets STAT bit 2 although LY = 3 is
different from LYC = 5 (the source computes the new flag as
`LYC != LY` when the previous bit 2 was clear), and with STAT = 0x40
(bit 6 set) the same call raises an LCDSTAT interrupt although the
coincidence condition does not hold.  The claim predicts STAT bit 2 = 0
and no coincidence interrupt at this input. -/
theorem C5_coincidence_flag_bug :
    (Display.SetScanline 3 ⟨2, 80, 7, 7, 5, 0, 0, 0, 0⟩).stat &&& 0x4 = 0x4 ∧
    (Display.SetScanline 3 ⟨2, 80, 7, 7, 5, 0, 0, 0, 0⟩).ly ≠
      (Display.SetScanline 3 ⟨2, 80, 7, 7, 5, 0, 0, 0, 0⟩).lyc ∧
    (Display.SetScanline 3 ⟨2, 80, 7, 7, 5, 0x40, 0, 0, 0⟩).lcdstats = 1 ∧
    (Display.SetScanline 3 ⟨2, 80, 7, 7, 5, 0x40, 0, 0, 0⟩).ly ≠
      (Display.SetScanline 3 ⟨2, 80, 7, 7, 5, 0x40, 0, 0, 0⟩).lyc := by decide

/-- Claim C6, failing input: eleven sprites cover scanline 10 at
distinct X positions; the source's cap `Max(num_active_sprites, 10)`
leaves all eleven in play, and pixel 85 — covered only by the eleventh
sprite in X order — receives that sprite's color (0xFF000000 from OBP0
= 0xE4 on an all-0xFF tile) instead of staying at the blank color the
claim predicts (the background is disabled, so without the eleventh
sprite the pixel would be 0xFFFFFFFF). -/
theorem C6_sprite_cap_bug :
    (Display.cullSprites Display.elevenSprites 10 8).length = 11 ∧
    Display.spriteCap (Display.cullSprites Display.elevenSprites 10 8).length = 11 ∧
    (Display.RenderScanline (fun _ => 0xFF) Display.elevenSprites
      0x82 0 0xE4 0 0 0 10).getD 85 0 = 0xFF000000 ∧
    (0xFF000000 : Nat) ≠ 0xFFFFFFFF := by decide

/-- Claim C7, counterexample: the latched registers are not stable
under 0x6000-window writes whose prior latch value is nonzero: after
writing 0x05 to the latch register (latch value 5, not 0), a write of
0x01 still snapshots the RTC (the source condition is `prev != 0x01 &&
value == 0x01`), changing the latched registers — the claim says only a
0→1 transition may change them. -/
theorem C7_rtc_latch_counterexample :
    mbc3LatchReg (CPUWrite 0 (mkMBC3 2) 0x6000 0x05) = 0x05 ∧
    mbc3LatchData (CPUWrite 61 (CPUWrite 0 (mkMBC3 2) 0x6000 0x05) 0x6000 0x01) ≠
      mbc3LatchData (CPUWrite 0 (mkMBC3 2) 0x6000 0x05) := by decide

/-- Claim C7, amended: a write of value v to the 0x6000–0x7FFF window
of an MBC3 cartridge copies the current computed RTC time into the five
latched registers exactly when the stored latch register is not 0x01
and v = 0x01 (any non-1 prior value, not only 0); otherwise the latched
registers are unchanged, and the latch register always becomes v. -/
theorem C7_rtc_latch_amended (now : Nat) (s : Cartridge) (d : MBC3Data)
    (address value : Nat) (hmbc : s.mbc = .mbc3 d)
    (h1 : 0x6000 ≤ address) (h2 : address ≤ 0x7FFF) (hv : value < 256) :
    mbc3LatchData (CPUWrite now s address value) =
      (if d.rtc_latch ≠ 0x01 ∧ value = 0x01 then
        latchFromRTC (GetCurrentRTCTime now s.rtc)
      else d.rtc_latch_data) ∧
    mbc3LatchReg (CPUWrite now s address value) = value := by
  have hdiv : address / 4096 = 6 ∨ address / 4096 = 7 := by omega
  have hval : value % 256 = value := Nat.mod_eq_of_lt hv
  rcases hdiv with h | h <;>
    simp [CPUWrite, hmbc, MBC_MBC3_Write, h, hval, mbc3LatchData, mbc3LatchReg] <;>
    split <;> simp

/-- Claim C7, witness: the amended latch condition evaluated on a
fresh MBC3 cartridge (latch register 0) written with 1 at time 61. -/
theorem C7_rtc_latch_witness :
    mbc3LatchData (CPUWrite 61 (mkMBC3 2) 0x6000 1) = ⟨1, 1, 0, 0, 0⟩ ∧
    mbc3LatchReg (CPUWrite 61 (mkMBC3 2) 0x6000 1) = 1 := by
  have h := C7_rtc_latch_amended 61 (mkMBC3 2) (MBC_MBC3_Reset 2) 0x6000 1 rfl
    (by norm_num) (by norm_num) (by norm_num)
  exact ⟨h.1.trans (by decide), h.2⟩

/-- Claim C8, counterexample: writing 0x1A (low nibble 0xA) to the
0x0000–0x1FFF window of an MBC1 cartridge leaves RAM disabled: the
source compares the full byte against 0x0A (`value == 0x0A`), not the
low nibble, while the claim predicts every value with low nibble 0xA
enables RAM. -/
theorem C8_ram_enable_counterexample :
    mbc1RamEnable (CPUWrite 0 (mkMBC1 2) 0x0000 0x1A) = false ∧
    (0x1A : Nat) &&& 0x0F = 0x0A := by decide

/-- Claim C8, amended: after any write of value v to the 0x0000–0x1FFF
window of an MBC1 cartridge, `ram_enable` holds if and only if
v = 0x0A exactly (not merely the low nibble). -/
theorem C8_ram_enable_amended (now : Nat) (s : Cartridge) (d : MBC1Data)
    (address value : Nat) (hmbc : s.mbc = .mbc1 d) (haddr : address ≤ 0x1FFF)
    (hv : value < 256) :
    (mbc1RamEnable (CPUWrite now s address value) = true ↔ value = 0x0A) := by
  have hdiv : address / 4096 = 0 ∨ address / 4096 = 1 := by omega
  have hval : value % 256 = value := Nat.mod_eq_of_lt hv
  rcases hdiv with h | h <;>
    by_cases hc : value = 0x0A <;>
    by_cases hm : s.external_ram_modified <;>
    simp [CPUWrite, hmbc, MBC_MBC1_Write, h, hval, mbc1RamEnable, SaveRAM, hc, hm]

/-- Claim C8, witness: the amended enable condition evaluated at the
enabling value 0x0A on a fresh MBC1 cartridge. -/
theorem C8_ram_enable_witness :
    mbc1RamEnable (CPUWrite 0 (mkMBC1 2) 0x0000 0x0A) = true := by
  have h := C8_ram_enable_amended 0 (mkMBC1 2) (MBC_MBC1_Reset 2) 0x0000 0x0A rfl
    (by norm_num) (by norm_num)
  exact h.mpr rfl

/-- Claim C9, failing input: on an MBC5 cartridge with 256 ROM banks
(ROM-size code 0x07), programming bank selector 0x101 (write 0x01 to
the 0x3000 window) triggers the out-of-range clamp, which stores
`(uint8)256 - 1 = -1` into the uint16 `active_rom_bank`, i.e. 65535 —
violating the claimed invariant `active_rom_bank < num_rom_banks`
instead of clamping to 255. -/
theorem C9_mbc5_clamp_overflow :
    (mkMBC5 256).num_rom_banks = 256 ∧
    mbc5ActiveRomBank (CPUWrite 0 (mkMBC5 256) 0x3000 0x01) = 65535 ∧
    ¬(mbc5ActiveRomBank (CPUWrite 0 (mkMBC5 256) 0x3000 0x01) < 256) := by decide

/-- Claim C10: for base time at most `now` with no uint64 overflow of
the summed offset and the day count within uint32, the RTC read
computes `t = (now - base_time) + offset_seconds + 60*offset_minutes +
3600*offset_hours + 86400*offset_days` and returns seconds `t % 60`,
minutes `t / 60 % 60`, hours `t / 3600 % 24` and days `t / 86400`, in
exact unsigned integer arithmetic. -/
theorem C10_rtc_time_formula (now : Nat) (rtc : RTC_DATA) (t : Nat)
    (ht : t = now - rtc.base_time + rtc.offset_seconds + rtc.offset_minutes * 60 +
      rtc.offset_hours * 3600 + rtc.offset_days * 86400)
    (hbase : rtc.base_time ≤ now) (hnow : now < 2 ^ 64)
    (hsum : t < 2 ^ 64) (hdays : t / 86400 < 2 ^ 32) :
    GetCurrentRTCTime now rtc = ⟨t % 60, t / 60 % 60, t / 3600 % 24, t / 86400⟩ := by
  subst ht
  have hb : rtc.base_time < 2 ^ 64 := Nat.lt_of_le_of_lt hbase hnow
  have e0 : (now % 2 ^ 64 + (2 ^ 64 - rtc.base_time % 2 ^ 64)) % 2 ^ 64 =
      now - rtc.base_time := by
    rw [Nat.mod_eq_of_lt hnow, Nat.mod_eq_of_lt hb]
    omega
  have e1 : (now - rtc.base_time + rtc.offset_seconds) % 2 ^ 64 =
      now - rtc.base_time + rtc.offset_seconds := Nat.mod_eq_of_lt (by omega)
  have e2 : (now - rtc.base_time + rtc.offset_seconds + rtc.offset_minutes * 60) % 2 ^ 64 =
      now - rtc.base_time + rtc.offset_seconds + rtc.offset_minutes * 60 :=
    Nat.mod_eq_of_lt (by omega)
  have e3 : (now - rtc.base_time + rtc.offset_seconds + rtc.offset_minutes * 60 +
        rtc.offset_hours * 3600) % 2 ^ 64 =
      now - rtc.base_time + rtc.offset_seconds + rtc.offset_minutes * 60 +
        rtc.offset_hours * 3600 := Nat.mod_eq_of_lt (by omega)
  have e4 : (now - rtc.base_time + rtc.offset_seconds + rtc.offset_minutes * 60 +
        rtc.offset_hours * 3600 + rtc.offset_days * 86400) % 2 ^ 64 =
      now - rtc.base_time + rtc.offset_seconds + rtc.offset_minutes * 60 +
        rtc.offset_hours * 3600 + rtc.offset_days * 86400 := Nat.mod_eq_of_lt hsum
  have f1 : ∀ x : Nat, x % 60 % 2 ^ 32 = x % 60 := fun x =>
    Nat.mod_eq_of_lt (lt_trans (Nat.mod_lt x (by norm_num)) (by norm_num))
  have f2 : ∀ x : Nat, x % 24 % 2 ^ 32 = x % 24 := fun x =>
    Nat.mod_eq_of_lt (lt_trans (Nat.mod_lt x (by norm_num)) (by norm_num))
  simp only [GetCurrentRTCTime, e0, e1, e2, e3, e4, f1, f2, Nat.mod_eq_of_lt hdays]

/-- Claim C10, witness: the formula evaluated at `now` = 3661 with zero
base time and offsets gives 1 second, 1 minute, 1 hour, 0 days. -/
theorem C10_rtc_time_witness :
    GetCurrentRTCTime 3661 ⟨0, 0, 0, 0, 0, false⟩ = ⟨1, 1, 1, 0⟩ := by
  have h := C10_rtc_time_formula 3661 ⟨0, 0, 0, 0, 0, false⟩ 3661 (by norm_num)
    (by norm_num) (by norm_num) (by norm_num) (by norm_num)
  simpa using h

end Gbe
